import Mathlib

/-!
Verification development for the Sharp CV Rank batch screening pipeline
(`ranker.py`).  The Python source is shallowly embedded: pure helpers become
Lean functions, and the external capabilities (PDF/DOCX text extraction, the
zip container, the reasoning engine, the mail transport) become explicit
function parameters or outcome values, exactly at the boundary where the
source calls them.  JSON numerics are modelled as integers (every score the
schema prescribes is an integer) and JSON values are modelled at the
granularity the pipeline reads them: atoms keyed in a flat object.
-/

namespace Ranker

/-- Character-counting prefix truncation: the embedding of Python string
slicing `s[:n]`, which counts code points exactly as `List.take` on the
logical character list of a Lean string. -/
def takeChars (s : String) (n : Nat) : String :=
  ⟨s.data.take n⟩

/-- Embedding of Python `str.lower()`.  `Char.toLower` agrees with Python on
ASCII, which covers every filename and suffix the claims mention. -/
def lowerStr (s : String) : String :=
  ⟨s.data.map Char.toLower⟩

/-- Embedding of Python `str.endswith(suffix)`. -/
def endsWithStr (s suf : String) : Bool :=
  suf.data.isSuffixOf s.data

/-- Substring search on character lists, the embedding of the Python
membership test `needle in haystack` on strings. -/
def containsSubList (needle : List Char) : List Char → Bool
  | [] => needle.isEmpty
  | c :: rest => needle.isPrefixOf (c :: rest) || containsSubList needle rest

/-- Embedding of the Python membership test `needle in haystack`. -/
def containsSubStr (needle hay : String) : Bool :=
  containsSubList needle.data hay.data

/-- JSON atoms, the value universe the pipeline actually reads from the
reasoning capability: the schema's fields are numbers and strings, and JSON
numerics are modelled as integers. -/
inductive JVal
  | null
  | bool (b : Bool)
  | num (n : Int)
  | str (s : String)
deriving DecidableEq

/-- A parsed JSON object, as `json.loads` returns it: string keys to values.
With duplicate keys the last occurrence wins, as in Python dicts. -/
def JObj : Type := List (String × JVal)

/-- Embedding of Python `dict.get(key, default)` (last duplicate key wins,
matching `json.loads`). -/
def dictGet (a : JObj) (k : String) (d : JVal) : JVal :=
  match a.reverse.find? (fun p => p.1 == k) with
  | some p => p.2
  | none => d

/-- The text-extraction capabilities `read_file_content` consumes, one per
supported container format, over an abstract byte-content type `β`:
`pdfExtract` returns the per-page `extract_text()` results (`none` where a
page yields no text) or the raised error, `docxExtract` the paragraph texts
or the raised error, and `txtDecode` the tolerant (`errors='ignore'`, hence
total) raw decode. -/
structure ExtractCaps (β : Type) where
  pdfExtract : β → Except String (List (Option String))
  docxExtract : β → Except String (List String)
  txtDecode : β → String

/-- The pdf branch of `read_file_content`: pages are concatenated with a
newline after each, and a page whose extracted text is `None` or `""` (both
falsy in Python) contributes nothing. -/
def pdfConcat (pages : List (Option String)) : String :=
  pages.foldl
    (fun acc t =>
      match t with
      | some s => if s = "" then acc else acc ++ s ++ "\n"
      | none => acc)
    ""

/-- The docx branch of `read_file_content`: every paragraph text is appended
with a newline after it. -/
def docxConcat (paras : List String) : String :=
  paras.foldl (fun acc p => acc ++ p ++ "\n") ""

/-- Embedding of `read_file_content(file_obj, filename)` (ranker.py lines
24-49).  The filename is lowercased first, the suffix chooses the extraction
capability, an extraction failure returns the diagnostic f-string built from
the lowered filename and the exception text, and otherwise the extracted
text is truncated to 4000 characters at the tail.  A filename matching none
of the three suffixes leaves `text = ""`. -/
def read_file_content {β : Type} (caps : ExtractCaps β) (content : β)
    (filename : String) : String :=
  let fn := lowerStr filename
  if endsWithStr fn ".pdf" then
    match caps.pdfExtract content with
    | Except.ok pages => takeChars (pdfConcat pages) 4000
    | Except.error e => "Error reading " ++ fn ++ ": " ++ e
  else if endsWithStr fn ".docx" then
    match caps.docxExtract content with
    | Except.ok paras => takeChars (docxConcat paras) 4000
    | Except.error e => "Error reading " ++ fn ++ ": " ++ e
  else if endsWithStr fn ".txt" then
    takeChars (caps.txtDecode content) 4000
  else
    takeChars "" 4000

/-- The successful-extraction text of `read_file_content`, branch by branch:
`Except.ok t` when the taken branch's capability succeeds with full text `t`
(before any truncation), `Except.error` when it raises. -/
def extractedText {β : Type} (caps : ExtractCaps β) (content : β)
    (filename : String) : Except String String :=
  let fn := lowerStr filename
  if endsWithStr fn ".pdf" then
    (caps.pdfExtract content).map pdfConcat
  else if endsWithStr fn ".docx" then
    (caps.docxExtract content).map docxConcat
  else if endsWithStr fn ".txt" then
    Except.ok (caps.txtDecode content)
  else
    Except.ok ""

/-- A candidate document as `process_uploaded_files` emits it:
`{'name': ..., 'text': ...}`. -/
structure Doc where
  name : String
  text : String
deriving DecidableEq

/-- The zip-member loop of `process_uploaded_files` (ranker.py lines 63-73):
members containing `__MACOSX` or ending in `/` are skipped, members whose
lowered name ends in `.pdf`, `.docx` or `.txt` are read and emitted with the
member's own path as name, and all other members are dropped.  A member is
the pair of its archive path and its bytes (Python pairs `z.namelist()` with
`z.open(filename).read()`; member reads are modelled total, as for an
archive that already opened). -/
def zipMemberDocs {β : Type} (caps : ExtractCaps β) :
    List (String × β) → List Doc
  | [] => []
  | (filename, content) :: rest =>
    if containsSubStr "__MACOSX" filename || endsWithStr filename "/" then
      zipMemberDocs caps rest
    else if endsWithStr (lowerStr filename) ".pdf"
        || endsWithStr (lowerStr filename) ".docx"
        || endsWithStr (lowerStr filename) ".txt" then
      ⟨filename, read_file_content caps content filename⟩ :: zipMemberDocs caps rest
    else
      zipMemberDocs caps rest

/-- The predicate a zip member must satisfy to be emitted: not metadata, not
a directory entry, and carrying a supported document suffix. -/
def keepMember (filename : String) : Bool :=
  !(containsSubStr "__MACOSX" filename || endsWithStr filename "/")
    && (endsWithStr (lowerStr filename) ".pdf"
        || endsWithStr (lowerStr filename) ".docx"
        || endsWithStr (lowerStr filename) ".txt")

/-- Embedding of `process_uploaded_files(uploaded_files)` (ranker.py lines
51-82).  An upload whose lowered name ends in `.zip` is opened by the
`openZip` capability (the in-memory `zipfile.ZipFile`): on failure the
exception is caught, only reported, and the upload yields no documents; on
success the member loop runs.  Any other upload is read directly and emitted
under its own name. -/
def process_uploaded_files {β : Type} (caps : ExtractCaps β)
    (openZip : β → Except String (List (String × β))) :
    List (String × β) → List Doc
  | [] => []
  | (name, content) :: rest =>
    if endsWithStr (lowerStr name) ".zip" then
      (match openZip content with
       | Except.error _ => []
       | Except.ok members => zipMemberDocs caps members)
        ++ process_uploaded_files caps openZip rest
    else
      ⟨name, read_file_content caps content name⟩
        :: process_uploaded_files caps openZip rest

/-- The prompt template text before the capped job description (the f-string
of `analyze_candidate`, ranker.py lines 86-89, whitespace included). -/
def promptPart1 : String :=
  "\n    You are a Forensic Technical Recruiter. Analyze this candidate.\n    \n    JOB DESCRIPTION:\n    "

/-- The prompt template text between the capped job description and the
capped candidate text (ranker.py lines 90-92). -/
def promptPart2 : String :=
  "\n    \n    CANDIDATE CV:\n    "

/-- The prompt template text after the capped candidate text (ranker.py
lines 93-118). -/
def promptPart3 : String :=
  "\n    \n    TASK:\n    1. Score (0-100): Strict match against JD.\n    2. Summary: 2 sentences.\n    3. Red Flags: Gaps, hopping, or missing required skills.\n    \n    4. INTERROGATION KIT (The \"Truth Test\"):\n       - Find 3 SPECIFIC claims in the CV (e.g. \"Managed $5M budget\", \"Used AWS Lambda\", \"Tenure 2018-2022\").\n       - Turn them into Closed Questions to verify the fact.\n       - Q1/A1: \"What was the specific budget?\" -> Ans: \"$5M\" (From CV).\n       - Q2/A2: \"Which specific AWS service did you use for X?\" -> Ans: \"Lambda\" (From CV).\n       - Q3/A3: \"Verify exact dates at [Company].\" -> Ans: \"2018-2022\" (From CV).\n       *IMPORTANT: The \x27Answer\x27 MUST be explicitly found in the text.*\n    \n    5. Behavioral Q (Open): One question to probe a weakness or gap.\n    \n    6. MANAGER BLURB: 1-sentence sales pitch for Slack.\n    7. OUTREACH EMAIL: Personalized email referencing a specific detail.\n    8. BLIND PROFILE: Summary with NO Name/Gender/School.\n    \n    OUTPUT JSON KEYS: \n    \"score\", \"summary\", \"pros\", \"cons\", \n    \"q1\", \"a1\", \"q2\", \"a2\", \"q3\", \"a3\", \"open_q\", \n    \"manager_blurb\", \"outreach_email\", \"blind_summary\"\n    "

/-- The instruction payload `analyze_candidate` builds (ranker.py lines
86-118): the template with `jd_text[:2000]` and `candidate_text[:3000]`
substituted.  The `filename` argument of `analyze_candidate` appears in no
f-string field, so the payload does not depend on it. -/
def buildPrompt (candidate_text jd_text : String) : String :=
  promptPart1
    ++ (takeChars jd_text 2000
      ++ (promptPart2 ++ (takeChars candidate_text 3000 ++ promptPart3)))

/-- The outcome of the one reasoning-capability invocation, seen from the
`try` block of `analyze_candidate`: the `create` call raises (transport
error), or `json.loads` raises on the returned content, or the content
parses.  Because the request asks `response_format = json_object`, a content
that parses is a structured object. -/
inductive ApiOutcome
  | transportFail
  | badParse
  | ok (obj : JObj)

/-- The fallback dict `analyze_candidate` returns from its `except` branch
(ranker.py line 127): score 0, summary the constant string `"Error"`, five
of the optional keys present as `""`, the rest absent (the caller reads
every key with `.get(key, default)`, so absent keys read as defaults). -/
def fallbackResult : JObj :=
  [("score", JVal.num 0), ("summary", JVal.str "Error"), ("q1", JVal.str ""),
    ("a1", JVal.str ""), ("manager_blurb", JVal.str ""),
    ("outreach_email", JVal.str ""), ("blind_summary", JVal.str "")]

/-- Embedding of `analyze_candidate(candidate_text, jd_text, filename)`
(ranker.py lines 85-127), as a function of the capability outcome: the
parsed object on success, the fallback dict when the invocation or the parse
fails.  The function is total — the `try`/`except` returns on every path, so
it never raises to its caller. -/
def analyze_candidate (candidate_text jd_text filename : String)
    (o : ApiOutcome) : JObj :=
  match o with
  | ApiOutcome.ok obj => obj
  | ApiOutcome.transportFail => fallbackResult
  | ApiOutcome.badParse => fallbackResult

/-- One request to the reasoning capability, as
`client.chat.completions.create` receives it (ranker.py lines 120-124). -/
structure ApiRequest where
  model : String
  response_format : String
  content : String

/-- The sequence of capability invocations one `analyze_candidate` call
issues: the body has a single `create` call site, inside no loop and with no
retry on failure, so the trace is one request whatever the outcome. -/
def analyze_candidate_requests (candidate_text jd_text filename : String) :
    List ApiRequest :=
  [{ model := "gpt-4o", response_format := "json_object",
     content := buildPrompt candidate_text jd_text }]

/-- One row of the results table the analysis loop builds (ranker.py lines
222-235), field for field. -/
structure Row where
  score : JVal
  name : String
  summary : JVal
  strengths : JVal
  red_flags : JVal
  manager_blurb : JVal
  outreach_email : JVal
  blind_summary : JVal
  q1 : JVal
  a1 : JVal
  q2 : JVal
  a2 : JVal
  q3 : JVal
  a3 : JVal
  open_q : JVal
deriving DecidableEq

/-- The row the analysis loop appends for one document: every field is read
from the analysis dict with `.get` and the source's default (0 for the
score, `''` for everything else); the name is the document's own. -/
def buildRow (docName : String) (a : JObj) : Row :=
  { score := dictGet a "score" (JVal.num 0),
    name := docName,
    summary := dictGet a "summary" (JVal.str ""),
    strengths := dictGet a "pros" (JVal.str ""),
    red_flags := dictGet a "cons" (JVal.str ""),
    manager_blurb := dictGet a "manager_blurb" (JVal.str ""),
    outreach_email := dictGet a "outreach_email" (JVal.str ""),
    blind_summary := dictGet a "blind_summary" (JVal.str ""),
    q1 := dictGet a "q1" (JVal.str ""),
    a1 := dictGet a "a1" (JVal.str ""),
    q2 := dictGet a "q2" (JVal.str ""),
    a2 := dictGet a "a2" (JVal.str ""),
    q3 := dictGet a "q3" (JVal.str ""),
    a3 := dictGet a "a3" (JVal.str ""),
    open_q := dictGet a "open_q" (JVal.str "") }

/-- Embedding of the analysis loop (ranker.py lines 212-235): the documents
are iterated in submission order and one row is appended per document.  The
reasoning capability's behaviour on the i-th call is the oracle's value at
i, so one run of the loop is the loop evaluated at one oracle. -/
def runAnalysisLoop (oracle : Nat → ApiOutcome) (jd_text : String)
    (docs : List Doc) : List Row :=
  docs.enum.map
    (fun p => buildRow p.2.name (analyze_candidate p.2.text jd_text p.2.name (oracle p.1)))

/-- The column labels of `pd.DataFrame(results)` when `results` is nonempty:
the shared key set of the row dicts, in insertion order. -/
def rowColumns : List String :=
  ["Score", "Name", "Summary", "Strengths", "Red Flags", "Manager Blurb",
    "Outreach Email", "Blind Summary", "Q1", "A1", "Q2", "A2", "Q3", "A3",
    "Open Q"]

/-- The columns of `pd.DataFrame(results)`: the row keys when at least one
row exists, and no columns at all for the empty list (pandas infers columns
from the dicts, of which there are none). -/
def dfColumns (rows : List Row) : List String :=
  if rows.isEmpty then [] else rowColumns

/-- Whether a JSON value is a number.  The DataFrame sort model below is
stated for integer-valued Score columns (the dtype the schema prescribes and
every fallback row has). -/
def isNum : JVal → Bool
  | JVal.num _ => true
  | _ => false

/-- Every row's Score value is a (model-integer) JSON number. -/
def IntScored (rows : List Row) : Prop :=
  ∀ r ∈ rows, isNum r.score = true

instance (rows : List Row) : Decidable (IntScored rows) :=
  inferInstanceAs (Decidable (∀ r ∈ rows, isNum r.score = true))

/-- The integer sort key of a row: its Score value.  Only used on rows
satisfying `IntScored`; the junk value 0 for other shapes is never reached
in the theorems below. -/
def scoreKey (r : Row) : Int :=
  match r.score with
  | JVal.num n => n
  | _ => 0

/-- A row of all-default values, used only as the out-of-range default of
positional lookups (never reached for in-range indices). -/
def defaultRow : Row :=
  buildRow "" []

/-- The Score column read in reverse row order: pandas' `nargsort` with
`ascending=False` reverses the values before calling `argsort`. -/
def revScores (rows : List Row) : List Int :=
  rows.reverse.map scoreKey

/-- Whether a value list is non-decreasing at every adjacent pair. -/
def nonDecreasing : List Int → Bool
  | [] => true
  | [_] => true
  | a :: b :: rest => decide (a ≤ b) && nonDecreasing (b :: rest)

/-- What `numpy.argsort(kind='quicksort')` guarantees about its result `q`
on the (reversed) value array: `q` enumerates every index exactly once and
reading the values through `q` is non-decreasing.  The default kind is not a
stable algorithm, so no tie-order property beyond this holds: any `q`
satisfying this contract is an admissible result. -/
def ArgsortAsc (vals : List Int) (q : List Nat) : Prop :=
  q.Perm (List.range vals.length)
    ∧ nonDecreasing (q.map (fun j => vals.getD j 0)) = true

/-- The indexer `pandas.core.sorting.nargsort` builds for a descending sort
without missing values: the index array is reversed, composed with the
ascending argsort of the reversed values, and the result reversed again
(`non_nan_idx[::-1][q][::-1]`, and the reversed index array maps j to
n - 1 - j). -/
def pandasIndexer (n : Nat) (q : List Nat) : List Nat :=
  (q.map (fun j => n - 1 - j)).reverse

/-- Taking DataFrame rows through an indexer, as `df.sort_values` reorders
rows by the computed indexer. -/
def applyIdx (rows : List Row) (idx : List Nat) : List Row :=
  idx.map (fun i => rows.getD i defaultRow)

/-- The admissible results of
`pd.DataFrame(results).sort_values(by="Score", ascending=False)` on a frame
that has a Score column: row orders reachable from some admissible
`argsort` of the reversed Score values through the descending indexer. -/
def SortValuesRel (rows out : List Row) : Prop :=
  ∃ q, ArgsortAsc (revScores rows) q
    ∧ out = applyIdx rows (pandasIndexer rows.length q)

/-- What line 240 of ranker.py produces: a sorted frame, or the KeyError
`sort_values(by="Score")` raises when the frame has no Score column. -/
inductive RankOutcome
  | keyError
  | report (out : List Row)

/-- The ranking step (ranker.py line 240) as a relation from the collected
rows to its outcome: with a Score column present, some admissible descending
sort of an integer-scored frame; without one (exactly the empty frame), the
KeyError. -/
def RankStep (rows : List Row) (res : RankOutcome) : Prop :=
  if "Score" ∈ dfColumns rows then
    ∃ out, res = RankOutcome.report out ∧ IntScored rows ∧ SortValuesRel rows out
  else
    res = RankOutcome.keyError

/-- Whether a JSON value is an integer in the schema's score range 0-100. -/
def scoreInRangeVal : JVal → Bool
  | JVal.num n => decide (0 ≤ n) && decide (n ≤ 100)
  | _ => false

/-- Whether a row's Score is an integer in 0-100. -/
def scoreInRange (r : Row) : Bool :=
  scoreInRangeVal r.score

/-- The Score column of a report. -/
def reportScores (rows : List Row) : List JVal :=
  rows.map (fun r => r.score)

/-- The four-column projection `df.head(5)[['Score', 'Name', 'Summary',
'Red Flags']]` rendered into the email body. -/
structure SummaryRow where
  score : JVal
  name : String
  summary : JVal
  red_flags : JVal

/-- The top-five projection of the ranked frame (ranker.py line 136). -/
def topFive (df : List Row) : List SummaryRow :=
  (df.take 5).map (fun r => ⟨r.score, r.name, r.summary, r.red_flags⟩)

/-- The HTML body of the summary email (ranker.py lines 138-143), with the
pandas `to_html` renderer abstract. -/
def emailBody (toHtml : List SummaryRow → String) (df : List Row)
    (jd_title : String) : String :=
  "\n    <h3>Candidate Ranking Report</h3>\n    <p>Attached is the analysis for <strong>"
    ++ jd_title
    ++ "</strong>.</p>\n    <h4>Top Matches:</h4>\n    "
    ++ toHtml (topFive df)
    ++ "\n    "

/-- The message `send_summary_email` assembles: subject, sender, recipient,
HTML body, and the full frame as the spreadsheet attachment. -/
structure EmailMsg where
  subject : String
  sender : String
  recipient : String
  htmlBody : String
  attachmentRows : List Row

/-- The assembled summary message (ranker.py lines 131-151): the sender is
the configured account, the whole frame goes into the attachment, the body
embeds the top-five table. -/
def summaryMsg (gmail_user : String) (toHtml : List SummaryRow → String)
    (user_email : String) (df : List Row) (jd_title : String) : EmailMsg :=
  { subject := "Ranked Candidates: " ++ jd_title,
    sender := gmail_user,
    recipient := user_email,
    htmlBody := emailBody toHtml df jd_title,
    attachmentRows := df }

/-- Embedding of `send_summary_email(user_email, df, jd_title)` (ranker.py
lines 130-158).  The message is assembled from pure reads of `df` (`head`,
column selection, `to_html`, `to_excel` mutate nothing), then handed to the
mail-transport capability inside `try`: delivery returns `True`, any
transport failure is caught and returns `False`.  The function is total and
Bool-valued: no path raises. -/
def send_summary_email (transport : EmailMsg → Except String Unit)
    (gmail_user : String) (toHtml : List SummaryRow → String)
    (user_email : String) (df : List Row) (jd_title : String) : Bool :=
  match transport (summaryMsg gmail_user toHtml user_email df jd_title) with
  | Except.ok _ => true
  | Except.error _ => false

/-- Whether a transport attempt failed. -/
def isErr : Except String Unit → Bool
  | Except.error _ => true
  | Except.ok _ => false

/-- The email step of the handler (ranker.py lines 277-279), with the
already-computed frame passed through explicitly: the handler keeps using
`df` after delivery, and the call leaves it untouched. -/
def emailStep (transport : EmailMsg → Except String Unit)
    (gmail_user : String) (toHtml : List SummaryRow → String)
    (user_email : String) (jd_title : String) (df : List Row) :
    List Row × Bool :=
  (df, send_summary_email transport gmail_user toHtml user_email df jd_title)

/-- The optional schema keys beyond the summary, each read with default `''`
by the result-row construction. -/
def optionalKeys : List String :=
  ["pros", "cons", "q1", "a1", "q2", "a2", "q3", "a3", "open_q",
    "manager_blurb", "outreach_email", "blind_summary"]

/-- What the failure policy promises of an analysis dict, observed through
the schema reads: the fallback dict itself, score 0, the constant diagnostic
summary, every other optional field at its default. -/
def FallbackFacts (a : JObj) : Prop :=
  a = fallbackResult
    ∧ dictGet a "score" (JVal.num 0) = JVal.num 0
    ∧ dictGet a "summary" (JVal.str "") = JVal.str "Error"
    ∧ ∀ k ∈ optionalKeys, dictGet a k (JVal.str "") = JVal.str ""

/-- Capabilities whose pdf engine raises with a 4100-character exception
text (exception texts and member paths are unbounded inputs to the
diagnostic f-string). -/
def capsPdfError : ExtractCaps Unit :=
  { pdfExtract := fun _ => Except.error (String.mk (List.replicate 4100 'e')),
    docxExtract := fun _ => Except.ok [],
    txtDecode := fun _ => "" }

/-- Capabilities whose container engines fail and whose raw decode yields a
short text. -/
def capsHello : ExtractCaps Unit :=
  { pdfExtract := fun _ => Except.error "corrupt",
    docxExtract := fun _ => Except.error "corrupt",
    txtDecode := fun _ => "hello world" }

/-- Capabilities that extract fixed bodies from every container. -/
def capsZip : ExtractCaps Unit :=
  { pdfExtract := fun _ => Except.ok [some "PDF BODY"],
    docxExtract := fun _ => Except.ok ["DOCX BODY"],
    txtDecode := fun _ => "TXT BODY" }

/-- A concrete archive member list: three supported documents, one
metadata-only entry, one directory entry. -/
def membersC5 : List (String × Unit) :=
  [("cv/alice.pdf", ()), ("cv/bob.docx", ()), ("notes.txt", ()),
    ("__MACOSX/._alice.pdf", ()), ("cv/", ())]

/-- A zip-open capability returning that member list. -/
def openZipC5 : Unit → Except String (List (String × Unit)) :=
  fun _ => Except.ok membersC5

/-- An oracle scoring the first candidate 3 and the rest 7. -/
def oracleW1 : Nat → ApiOutcome := fun i =>
  if i = 0 then ApiOutcome.ok [("score", JVal.num 3)]
  else ApiOutcome.ok [("score", JVal.num 7)]

/-- A two-document batch. -/
def docsW1 : List Doc := [⟨"amy.pdf", "amy cv"⟩, ⟨"ben.pdf", "ben cv"⟩]

/-- The rows the analysis loop collects from `docsW1` under `oracleW1`. -/
def rowsW1 : List Row := runAnalysisLoop oracleW1 "backend role" docsW1

/-- The descending sort of `rowsW1` (indexer from the argsort `[1, 0]`). -/
def outW1 : List Row := applyIdx rowsW1 (pandasIndexer 2 [1, 0])

/-- An oracle scoring every candidate 50: a batch made entirely of ties. -/
def oracle17 : Nat → ApiOutcome := fun _ => ApiOutcome.ok [("score", JVal.num 50)]

/-- Seventeen candidate documents in submission order `c00 .. c16` — more
than numpy's small-array insertion-sort threshold, so the quicksort
partition actually runs on the tied Score column. -/
def docs17 : List Doc :=
  [⟨"c00", "t"⟩, ⟨"c01", "t"⟩, ⟨"c02", "t"⟩, ⟨"c03", "t"⟩, ⟨"c04", "t"⟩,
    ⟨"c05", "t"⟩, ⟨"c06", "t"⟩, ⟨"c07", "t"⟩, ⟨"c08", "t"⟩, ⟨"c09", "t"⟩,
    ⟨"c10", "t"⟩, ⟨"c11", "t"⟩, ⟨"c12", "t"⟩, ⟨"c13", "t"⟩, ⟨"c14", "t"⟩,
    ⟨"c15", "t"⟩, ⟨"c16", "t"⟩]

/-- The rows the analysis loop collects from `docs17` under `oracle17`: all
Score 50, names in submission order. -/
def rows17 : List Row := runAnalysisLoop oracle17 "any role" docs17

/-- An admissible argsort of seventeen equal values that is not the identity
(on an all-ties array every index order is a valid ascending argsort, and
the unstable default kind promises nothing more). -/
def q17 : List Nat := [0, 1, 2, 3, 4, 5, 6, 7, 8, 9, 10, 11, 12, 13, 14, 16, 15]

/-- The sorted frame `q17` yields: candidates `c01` and `c00` swapped, the
rest in place. -/
def out17 : List Row := applyIdx rows17 (pandasIndexer 17 q17)

/-- An oracle on which every evaluation fails in transport. -/
def oracleW3 : Nat → ApiOutcome := fun _ => ApiOutcome.transportFail

/-- A two-document batch whose evaluations all fail. -/
def docsW3 : List Doc := [⟨"ana.pdf", "ana"⟩, ⟨"bob.docx", "bob"⟩]

/-- The rows collected from `docsW3` under `oracleW3`: two fallback rows. -/
def rowsW3 : List Row := runAnalysisLoop oracleW3 "role" docsW3

/-- The (identity) descending sort of the two tied fallback rows. -/
def outW3 : List Row := applyIdx rowsW3 (pandasIndexer 2 [0, 1])

/-- An oracle returning a structured object whose score is 101: nothing in
the pipeline validates the requested 0-100 range. -/
def oracleC7 : Nat → ApiOutcome := fun _ => ApiOutcome.ok [("score", JVal.num 101)]

/-- A one-document batch. -/
def docsC7 : List Doc := [⟨"zoe.pdf", "zoe cv"⟩]

/-- The rows collected from `docsC7` under `oracleC7`: one row, Score 101. -/
def rowsC7 : List Row := runAnalysisLoop oracleC7 "senior role" docsC7

/-- An oracle returning a compliant score of 88. -/
def oracleW7 : Nat → ApiOutcome := fun _ => ApiOutcome.ok [("score", JVal.num 88)]

/-- A one-document batch. -/
def docsW7 : List Doc := [⟨"dan.docx", "dan cv"⟩]

/-- The rows collected from `docsW7` under `oracleW7`. -/
def rowsW7 : List Row := runAnalysisLoop oracleW7 "data role" docsW7

/-- The (identity) sort of the single row. -/
def outW7 : List Row := applyIdx rowsW7 (pandasIndexer 1 [0])

/-! ## Helper lemmas -/

theorem takeChars_length_le (s : String) (n : Nat) : (takeChars s n).length ≤ n := by
  show (s.data.take n).length ≤ n
  simp

theorem isPrefixOf_self_append (l t : List Char) : l.isPrefixOf (l ++ t) = true := by
  induction l with
  | nil => cases t <;> rfl
  | cons a as ih => simp [List.isPrefixOf, ih]

theorem containsSubList_here (needle post : List Char) :
    containsSubList needle (needle ++ post) = true := by
  cases needle with
  | nil =>
    cases post with
    | nil => rfl
    | cons c t => simp [containsSubList, List.isPrefixOf]
  | cons a as => simp [containsSubList, isPrefixOf_self_append]

theorem containsSubList_append (needle pre post : List Char) :
    containsSubList needle (pre ++ (needle ++ post)) = true := by
  induction pre with
  | nil => simpa using containsSubList_here needle post
  | cons c rest ih => simp [containsSubList, ih]

theorem containsSubStr_of_decomp {needle pre post hay : String}
    (h : hay = pre ++ (needle ++ post)) : containsSubStr needle hay = true := by
  have hd : hay.data = pre.data ++ (needle.data ++ post.data) := by
    rw [h, String.data_append, String.data_append]
  show containsSubList needle.data hay.data = true
  rw [hd]
  exact containsSubList_append needle.data pre.data post.data

theorem isPrefixOf_head_eq {a b : Char} {as bs l : List Char}
    (ha : (a :: as).isPrefixOf l = true) (hb : (b :: bs).isPrefixOf l = true) :
    a = b := by
  cases l with
  | nil => simp [List.isPrefixOf] at ha
  | cons c t =>
    simp only [List.isPrefixOf, Bool.and_eq_true, beq_iff_eq] at ha hb
    exact ha.1.trans hb.1.symm

theorem isPrefixOf_head_ne {a b : Char} {as bs l : List Char}
    (hne : a ≠ b) (ha : (a :: as).isPrefixOf l = true) :
    (b :: bs).isPrefixOf l = false := by
  cases hb : (b :: bs).isPrefixOf l with
  | false => rfl
  | true => exact absurd (isPrefixOf_head_eq ha hb) hne

theorem endsWith_txt_not_pdf {s : String} (h : endsWithStr s ".txt" = true) :
    endsWithStr s ".pdf" = false := by
  have ht : List.isPrefixOf ['t', 'x', 't', '.'] s.data.reverse = true := h
  have : List.isPrefixOf ['f', 'd', 'p', '.'] s.data.reverse = false :=
    isPrefixOf_head_ne (by decide) ht
  exact this

theorem endsWith_txt_not_docx {s : String} (h : endsWithStr s ".txt" = true) :
    endsWithStr s ".docx" = false := by
  have ht : List.isPrefixOf ['t', 'x', 't', '.'] s.data.reverse = true := h
  have : List.isPrefixOf ['x', 'c', 'o', 'd', '.'] s.data.reverse = false :=
    isPrefixOf_head_ne (by decide) ht
  exact this

theorem revScores_length (rows : List Row) : (revScores rows).length = rows.length := by
  simp [revScores]

theorem argsortAsc_mem_lt {rows : List Row} {q : List Nat}
    (h : ArgsortAsc (revScores rows) q) {j : Nat} (hj : j ∈ q) :
    j < rows.length := by
  have hmem := h.1.mem_iff.mp hj
  rw [revScores_length] at hmem
  exact List.mem_range.mp hmem

theorem chain'_of_nonDecreasing {l : List Int} (h : nonDecreasing l = true) :
    l.Chain' (fun a b => a ≤ b) := by
  induction l with
  | nil => simp
  | cons a rest ih =>
    cases rest with
    | nil => simp
    | cons b rest2 =>
      simp only [nonDecreasing, Bool.and_eq_true, decide_eq_true_eq] at h
      rw [List.chain'_cons]
      exact ⟨h.1, ih h.2⟩

theorem sortValuesRel_mapScore {rows out : List Row} (h : SortValuesRel rows out) :
    List.Chain' (fun a b => b ≤ a) (out.map scoreKey) := by
  obtain ⟨q, hq, hout⟩ := h
  subst hout
  have hmap : (applyIdx rows (pandasIndexer rows.length q)).map scoreKey
      = (q.map (fun j => (revScores rows).getD j 0)).reverse := by
    simp only [applyIdx, pandasIndexer, List.map_reverse, List.map_map]
    congr 1
    apply List.map_congr_left
    intro j hj
    have hjlt := argsortAsc_mem_lt hq hj
    have hn1 : rows.length - 1 - j < rows.length := by omega
    have hj' : j < (revScores rows).length := by rw [revScores_length]; exact hjlt
    simp only [Function.comp]
    rw [List.getD_eq_getElem rows defaultRow hn1, List.getD_eq_getElem _ 0 hj']
    simp only [revScores]
    rw [List.getElem_map, List.getElem_reverse]
  rw [hmap, List.chain'_reverse]
  exact chain'_of_nonDecreasing hq.2

theorem sortValuesRel_length {rows out : List Row} (h : SortValuesRel rows out) :
    out.length = rows.length := by
  obtain ⟨q, hq, hout⟩ := h
  subst hout
  simp only [applyIdx, pandasIndexer, List.length_map, List.length_reverse]
  have := hq.1.length_eq
  rw [List.length_range, revScores_length] at this
  exact this

theorem sortValuesRel_mem {rows out : List Row} (h : SortValuesRel rows out)
    {r : Row} (hr : r ∈ out) : r ∈ rows := by
  obtain ⟨q, hq, hout⟩ := h
  subst hout
  simp only [applyIdx, List.mem_map] at hr
  obtain ⟨i, hi, hri⟩ := hr
  simp only [pandasIndexer, List.mem_reverse, List.mem_map] at hi
  obtain ⟨j, hj, rfl⟩ := hi
  have hjlt := argsortAsc_mem_lt hq hj
  have hn1 : rows.length - 1 - j < rows.length := by omega
  rw [← hri, List.getD_eq_getElem rows defaultRow hn1]
  exact List.getElem_mem hn1

theorem rankStep_report {rows out : List Row}
    (h : RankStep rows (RankOutcome.report out)) : SortValuesRel rows out := by
  unfold RankStep at h
  split at h
  · obtain ⟨out', heq, _, hrel⟩ := h
    cases heq
    exact hrel
  · cases h

theorem runAnalysisLoop_length (oracle : Nat → ApiOutcome) (jd_text : String)
    (docs : List Doc) : (runAnalysisLoop oracle jd_text docs).length = docs.length := by
  simp [runAnalysisLoop, List.enum_length]

theorem mem_runAnalysisLoop {oracle : Nat → ApiOutcome} {jd_text : String}
    {docs : List Doc} {r : Row} (h : r ∈ runAnalysisLoop oracle jd_text docs) :
    ∃ p : Nat × Doc, p ∈ docs.enum
      ∧ r = buildRow p.2.name (analyze_candidate p.2.text jd_text p.2.name (oracle p.1)) := by
  simp only [runAnalysisLoop, List.mem_map] at h
  obtain ⟨p, hp, he⟩ := h
  exact ⟨p, hp, he.symm⟩

/-! ## Claim theorems -/

/-- C2: for every job text, candidate text and filename, when the reasoning
capability invocation fails in transport or its response cannot be parsed as
a structured object, `analyze_candidate` returns — it never raises: the
embedding is a total function over its declared inputs — the fallback
result: score 0, the short diagnostic summary string `"Error"`, and every
other optional field at its schema default. -/
theorem analyze_candidate_failure_fallback (candidate_text jd_text filename : String)
    (o : ApiOutcome) (h : o = ApiOutcome.transportFail ∨ o = ApiOutcome.badParse) :
    FallbackFacts (analyze_candidate candidate_text jd_text filename o) := by
  rcases h with h | h <;> subst h <;>
    exact ⟨rfl,
      (by decide : dictGet fallbackResult "score" (JVal.num 0) = JVal.num 0),
      (by decide : dictGet fallbackResult "summary" (JVal.str "") = JVal.str "Error"),
      (by decide : ∀ k ∈ optionalKeys, dictGet fallbackResult k (JVal.str "") = JVal.str "")⟩

/-- Witness for C2: the fallback facts hold at a concrete failing call. -/
theorem analyze_candidate_failure_fallback_witness :
    FallbackFacts (analyze_candidate "cv body" "job body" "amy.docx" ApiOutcome.transportFail) :=
  analyze_candidate_failure_fallback "cv body" "job body" "amy.docx"
    ApiOutcome.transportFail (Or.inl rfl)

/-- C10: for every transport capability, renderer, recipient, report and
title, the email step is Bool-valued and total — a transport failure is
caught and reported as `false`, exactly when the transport errs — and it
passes the already-computed report through unchanged. -/
theorem send_summary_email_reports_failure (transport : EmailMsg → Except String Unit)
    (gmail_user : String) (toHtml : List SummaryRow → String)
    (user_email jd_title : String) (df : List Row) :
    (emailStep transport gmail_user toHtml user_email jd_title df).1 = df
      ∧ ((emailStep transport gmail_user toHtml user_email jd_title df).2 = false
          ↔ isErr (transport (summaryMsg gmail_user toHtml user_email df jd_title)) = true) := by
  refine ⟨rfl, ?_⟩
  unfold emailStep send_summary_email isErr
  cases transport (summaryMsg gmail_user toHtml user_email df jd_title) <;> simp

/-- C8 (amended): the instruction payload embeds the job text capped at 2000
characters and the candidate text capped at 3000 characters, and each
`analyze_candidate` call issues exactly one capability request, whose
content is that payload, with no retry.  (The candidate's name is a
parameter of the call but is not embedded — see the counterexample.) -/
theorem prompt_embeds_capped_texts_once (candidate_text jd_text filename : String) :
    (∃ pre post, buildPrompt candidate_text jd_text
        = pre ++ (takeChars jd_text 2000 ++ post))
      ∧ (∃ pre post, buildPrompt candidate_text jd_text
          = pre ++ (takeChars candidate_text 3000 ++ post))
      ∧ (analyze_candidate_requests candidate_text jd_text filename).map ApiRequest.content
          = [buildPrompt candidate_text jd_text]
      ∧ (analyze_candidate_requests candidate_text jd_text filename).length = 1 := by
  refine ⟨⟨promptPart1, promptPart2 ++ (takeChars candidate_text 3000 ++ promptPart3), rfl⟩,
    ⟨promptPart1 ++ (takeChars jd_text 2000 ++ promptPart2), promptPart3, ?_⟩, rfl, rfl⟩
  simp [buildPrompt, String.append_assoc]

set_option maxRecDepth 8000 in
/-- Counterexample for C8: at a concrete job text, candidate text and
filename, the payload does not embed the candidate's name anywhere. -/
theorem prompt_omits_candidate_name :
    ¬ ∃ pre post, buildPrompt "Python developer" "Backend engineer"
        = pre ++ ("alice.pdf" ++ post) := by
  rintro ⟨pre, post, h⟩
  have hc := containsSubStr_of_decomp h
  have hf : containsSubStr "alice.pdf" (buildPrompt "Python developer" "Backend engineer")
      = false := by decide
  rw [hc] at hf
  exact Bool.noConfusion hf

/-- C5: the zip-member loop emits one document per member that survives the
metadata/directory skip and carries a supported suffix, named by the
member's own path — for every archive and every capability — and on a
concrete archive of three supported documents, one metadata-only entry and
one directory entry, the pipeline yields exactly those three documents. -/
theorem zip_members_filtered_exactly :
    (∀ (β : Type) (caps : ExtractCaps β) (members : List (String × β)),
        zipMemberDocs caps members
          = (members.filter (fun m => keepMember m.1)).map
              (fun m => ⟨m.1, read_file_content caps m.2 m.1⟩))
      ∧ (process_uploaded_files capsZip openZipC5 [("batch.zip", ())]).map Doc.name
          = ["cv/alice.pdf", "cv/bob.docx", "notes.txt"] := by
  constructor
  · intro β caps members
    induction members with
    | nil => rfl
    | cons m rest ih =>
      obtain ⟨filename, content⟩ := m
      cases hskip : containsSubStr "__MACOSX" filename || endsWithStr filename "/" with
      | true =>
        have hk : keepMember filename = false := by simp [keepMember, hskip]
        simp [zipMemberDocs, hskip, List.filter_cons, hk, ih]
      | false =>
        cases hsup : endsWithStr (lowerStr filename) ".pdf"
            || endsWithStr (lowerStr filename) ".docx"
            || endsWithStr (lowerStr filename) ".txt" with
        | true =>
          have hk : keepMember filename = true := by simp [keepMember, hskip, hsup]
          simp [zipMemberDocs, hskip, hsup, List.filter_cons, hk, ih]
        | false =>
          have hk : keepMember filename = false := by simp [keepMember, hskip, hsup]
          simp [zipMemberDocs, hskip, hsup, List.filter_cons, hk, ih]
  · decide

/-- C9 (amended): only a filename whose lowered form ends in `.txt` gets the
raw tolerant decode (then capped at 4000 characters); a filename matching
none of `.pdf`, `.docx`, `.txt` yields the empty string, not the decoded
bytes. -/
theorem txt_suffix_raw_decode_only {β : Type} (caps : ExtractCaps β)
    (content : β) (filename : String) :
    (endsWithStr (lowerStr filename) ".txt" = true →
        read_file_content caps content filename = takeChars (caps.txtDecode content) 4000)
      ∧ (endsWithStr (lowerStr filename) ".pdf" = false →
          endsWithStr (lowerStr filename) ".docx" = false →
          endsWithStr (lowerStr filename) ".txt" = false →
          read_file_content caps content filename = "") := by
  constructor
  · intro ht
    have hp := endsWith_txt_not_pdf ht
    have hd := endsWith_txt_not_docx ht
    simp [read_file_content, hp, hd, ht]
  · intro hp hd ht
    simp [read_file_content, hp, hd, ht]
    rfl

/-- Witness for C9's amended theorem: both legs at concrete filenames. -/
theorem txt_suffix_raw_decode_only_witness :
    read_file_content capsHello () "cv.txt" = takeChars (capsHello.txtDecode ()) 4000
      ∧ read_file_content capsHello () "readme.md" = "" :=
  ⟨(txt_suffix_raw_decode_only capsHello () "cv.txt").1 (by decide),
    (txt_suffix_raw_decode_only capsHello () "readme.md").2 (by decide) (by decide) (by decide)⟩

/-- Counterexample for C9: an upload with an unrecognized plain-text-like
suffix is not raw-decoded: the decode capability yields `"hello world"`, but
`read_file_content` returns the empty string. -/
theorem unrecognized_suffix_yields_empty :
    read_file_content capsHello () "notes.md" = ""
      ∧ capsHello.txtDecode () = "hello world" :=
  ⟨rfl, rfl⟩

/-- C4 (amended): whenever the extraction capability of the taken branch
succeeds with full text `t`, the produced document text is exactly `t`
truncated at the tail to 4000 characters, hence within the cap.  (When
extraction fails the diagnostic string is returned without truncation — see
the counterexample.) -/
theorem read_file_content_success_capped {β : Type} (caps : ExtractCaps β)
    (content : β) (filename : String) (t : String)
    (h : extractedText caps content filename = Except.ok t) :
    read_file_content caps content filename = takeChars t 4000
      ∧ (read_file_content caps content filename).length ≤ 4000 := by
  have hres : read_file_content caps content filename = takeChars t 4000 := by
    simp only [read_file_content, extractedText] at h ⊢
    by_cases hpdf : endsWithStr (lowerStr filename) ".pdf" = true
    · rw [if_pos hpdf] at h ⊢
      cases hx : caps.pdfExtract content with
      | ok pages =>
        rw [hx] at h
        simp only [Except.map] at h
        injection h with h
        show takeChars (pdfConcat pages) 4000 = takeChars t 4000
        rw [h]
      | error e =>
        rw [hx] at h
        simp [Except.map] at h
    · rw [if_neg hpdf] at h ⊢
      by_cases hdocx : endsWithStr (lowerStr filename) ".docx" = true
      · rw [if_pos hdocx] at h ⊢
        cases hx : caps.docxExtract content with
        | ok paras =>
          rw [hx] at h
          simp only [Except.map] at h
          injection h with h
          show takeChars (docxConcat paras) 4000 = takeChars t 4000
          rw [h]
        | error e =>
          rw [hx] at h
          simp [Except.map] at h
      · rw [if_neg hdocx] at h ⊢
        by_cases htxt : endsWithStr (lowerStr filename) ".txt" = true
        · rw [if_pos htxt] at h ⊢
          injection h with h
          rw [h]
        · rw [if_neg htxt] at h ⊢
          injection h with h
          rw [← h]
  exact ⟨hres, by rw [hres]; exact takeChars_length_le t 4000⟩

/-- Witness for C4's amended theorem: a successful extraction at concrete
inputs is capped. -/
theorem read_file_content_success_capped_witness :
    extractedText capsHello () "cv.txt" = Except.ok "hello world"
      ∧ (read_file_content capsHello () "cv.txt" = takeChars "hello world" 4000
          ∧ (read_file_content capsHello () "cv.txt").length ≤ 4000) :=
  ⟨rfl, read_file_content_success_capped capsHello () "cv.txt" "hello world" rfl⟩

/-- Counterexample for C4: when extraction fails, the diagnostic string is
returned uncapped — here 4121 characters, over the 4000-character cap. -/
theorem read_file_content_error_exceeds_cap :
    4000 < (read_file_content capsPdfError () "x.pdf").length := by
  have he : read_file_content capsPdfError () "x.pdf"
      = "Error reading x.pdf: " ++ ⟨List.replicate 4100 'e'⟩ := rfl
  rw [he]
  show 4000 < ("Error reading x.pdf: ".data ++ List.replicate 4100 'e').length
  rw [List.length_append, List.length_replicate]
  have h21 : ("Error reading x.pdf: ").data.length = 21 := rfl
  rw [h21]
  norm_num

/-- C1 (amended): whatever admissible result the ranking step's unstable
descending sort produces, the ranked report's scores are non-increasing
across adjacent positions. -/
theorem ranked_report_scores_nonincreasing (oracle : Nat → ApiOutcome)
    (jd_text : String) (docs : List Doc) (out : List Row)
    (h : RankStep (runAnalysisLoop oracle jd_text docs) (RankOutcome.report out)) :
    List.Chain' (fun a b => b ≤ a) (out.map scoreKey) :=
  sortValuesRel_mapScore (rankStep_report h)

/-- Witness for C1's amended theorem: a concrete two-candidate batch with
scores 3 and 7, admissibly sorted to 7, 3. -/
theorem ranked_report_scores_nonincreasing_witness :
    RankStep (runAnalysisLoop oracleW1 "backend role" docsW1) (RankOutcome.report outW1)
      ∧ List.Chain' (fun a b => b ≤ a) (outW1.map scoreKey) := by
  have h : RankStep (runAnalysisLoop oracleW1 "backend role" docsW1)
      (RankOutcome.report outW1) := by
    unfold RankStep
    rw [if_pos (by decide)]
    exact ⟨outW1, rfl, by decide, ⟨[1, 0], ⟨by decide, by decide⟩, by decide⟩⟩
  exact ⟨h, ranked_report_scores_nonincreasing oracleW1 "backend role" docsW1 outW1 h⟩

/-- Counterexample for C1: on a seventeen-candidate batch of equal scores
the unstable default sort admits a ranked report whose equal-scoring
candidates are not in submission order (c01 before c00), although the rows
were collected in submission order. -/
theorem sort_values_tie_order_not_submission_order :
    RankStep rows17 (RankOutcome.report out17)
      ∧ rows17.map Row.name = docs17.map Doc.name
      ∧ out17.map Row.name ≠ docs17.map Doc.name := by
  refine ⟨?_, by decide, by decide⟩
  unfold RankStep
  rw [if_pos (by decide)]
  exact ⟨out17, rfl, by decide, ⟨q17, ⟨by decide, by decide⟩, by decide⟩⟩

/-- C3 (amended): whenever the ranking step succeeds on the collected rows
(in particular the batch is nonempty, with the integer-valued score column
the schema prescribes), the ranked report has exactly one entry per
submitted document — also when evaluations fail, since failures still append
a fallback row. -/
theorem report_has_one_entry_per_document (oracle : Nat → ApiOutcome)
    (jd_text : String) (docs : List Doc) (out : List Row)
    (h : RankStep (runAnalysisLoop oracle jd_text docs) (RankOutcome.report out)) :
    out.length = docs.length := by
  rw [sortValuesRel_length (rankStep_report h), runAnalysisLoop_length]

/-- Witness for C3's amended theorem: both evaluations of a two-document
batch fail in transport and the report still has two entries. -/
theorem report_has_one_entry_per_document_witness :
    RankStep (runAnalysisLoop oracleW3 "role" docsW3) (RankOutcome.report outW3)
      ∧ outW3.length = docsW3.length := by
  have h : RankStep (runAnalysisLoop oracleW3 "role" docsW3)
      (RankOutcome.report outW3) := by
    unfold RankStep
    rw [if_pos (by decide)]
    exact ⟨outW3, rfl, by decide, ⟨[0, 1], ⟨by decide, by decide⟩, by decide⟩⟩
  exact ⟨h, report_has_one_entry_per_document oracleW3 "role" docsW3 outW3 h⟩

/-- Counterexample for C3: the empty batch yields no report at all — the
loop collects no rows and the ranking step raises the KeyError instead of
returning a zero-entry report. -/
theorem empty_batch_produces_no_report :
    runAnalysisLoop (fun _ => ApiOutcome.badParse) "any job" [] = []
      ∧ RankStep [] RankOutcome.keyError := by
  refine ⟨rfl, ?_⟩
  unfold RankStep
  rw [if_neg (by decide)]

/-- C6 (code evaluation): on the empty document sequence the ranking step
does not return an empty report: `pd.DataFrame([])` has no Score column, so
`sort_values(by="Score")` raises the KeyError before any best-candidate
selection is reached. -/
theorem empty_docs_rank_step_raises :
    RankStep (runAnalysisLoop (fun _ => ApiOutcome.transportFail) "Backend engineer" [])
      RankOutcome.keyError := by
  unfold RankStep
  rw [if_neg (by decide)]

/-- C7 (amended): the pipeline never validates the score it reads; but
whenever every structured response carries a score that is an integer within
0-100 (as the prompt requests), every row of the ranked report has its score
in 0-100 — fallback rows included, whose score is 0. -/
theorem scores_in_range_of_compliant (oracle : Nat → ApiOutcome)
    (jd_text : String) (docs : List Doc) (out : List Row)
    (hc : ∀ i obj, oracle i = ApiOutcome.ok obj →
        scoreInRangeVal (dictGet obj "score" (JVal.num 0)) = true)
    (h : RankStep (runAnalysisLoop oracle jd_text docs) (RankOutcome.report out)) :
    ∀ r ∈ out, scoreInRange r = true := by
  intro r hr
  have hrow := sortValuesRel_mem (rankStep_report h) hr
  obtain ⟨p, hp, hre⟩ := mem_runAnalysisLoop hrow
  subst hre
  cases ho : oracle p.1 with
  | transportFail => rfl
  | badParse => rfl
  | ok obj => exact hc p.1 obj ho

/-- Witness for C7's amended theorem: a compliant oracle scoring 88, whose
single report row is in range. -/
theorem scores_in_range_of_compliant_witness :
    (∀ i obj, oracleW7 i = ApiOutcome.ok obj →
        scoreInRangeVal (dictGet obj "score" (JVal.num 0)) = true)
      ∧ RankStep (runAnalysisLoop oracleW7 "data role" docsW7) (RankOutcome.report outW7)
      ∧ ∀ r ∈ outW7, scoreInRange r = true := by
  have hc : ∀ i obj, oracleW7 i = ApiOutcome.ok obj →
      scoreInRangeVal (dictGet obj "score" (JVal.num 0)) = true := by
    intro i obj hobj
    simp only [oracleW7] at hobj
    injection hobj with hobj
    subst hobj
    decide
  have h : RankStep (runAnalysisLoop oracleW7 "data role" docsW7)
      (RankOutcome.report outW7) := by
    unfold RankStep
    rw [if_pos (by decide)]
    exact ⟨outW7, rfl, by decide, ⟨[0], ⟨by decide, by decide⟩, by decide⟩⟩
  exact ⟨hc, h, scores_in_range_of_compliant oracleW7 "data role" docsW7 outW7 hc h⟩

/-- Counterexample for C7: a structured response scoring 101 flows through
unvalidated — the ranked report's single row carries score 101, outside
0-100. -/
theorem uncapped_score_reaches_report :
    RankStep rowsC7 (RankOutcome.report rowsC7)
      ∧ reportScores rowsC7 = [JVal.num 101]
      ∧ rowsC7.map scoreInRange = [false] := by
  refine ⟨?_, by decide, by decide⟩
  unfold RankStep
  rw [if_pos (by decide)]
  exact ⟨rowsC7, rfl, by decide, ⟨[0], ⟨by decide, by decide⟩, by decide⟩⟩

end Ranker
